import Mathlib

/-!
Verification of the `inspect_path` repository: a shallow embedding of the
mount-table parser, the path-to-mount resolver, the device classifier
(`src/platform/unix.rs`), the Windows drive-type resolver
(`src/platform/windows.rs`), and the status probes.

Strings are manipulated through their character lists so that every
definition evaluates by kernel reduction.  I/O results (the sysfs removable
attribute, the Windows drive-type query, the universal-name resolution, the
metadata probe) are passed in as explicit oracle parameters.
-/

deriving instance DecidableEq for Except

namespace InspectPath

/-! ## String utilities mirroring the Rust standard library -/

/-- Split a character list at every occurrence of `c` (model of splitting a
string on a single separator character, keeping empty chunks). -/
def splitCharAux (c : Char) : List Char → List Char → List (List Char)
  | [], acc => [acc.reverse]
  | d :: ds, acc =>
    if d = c then acc.reverse :: splitCharAux c ds []
    else splitCharAux c ds (d :: acc)

def splitChar (c : Char) (l : List Char) : List (List Char) :=
  splitCharAux c l []

/-- Model of Rust `str::split_whitespace`: maximal runs of non-whitespace
characters, with no empty chunks. -/
def wsSplitAux : List Char → List Char → List (List Char)
  | [], acc => if acc.isEmpty then [] else [acc.reverse]
  | d :: ds, acc =>
    if d.isWhitespace then
      if acc.isEmpty then wsSplitAux ds []
      else acc.reverse :: wsSplitAux ds []
    else wsSplitAux ds (d :: acc)

def splitWs (s : String) : List String :=
  (wsSplitAux s.toList []).map List.asString

/-- Split a character list at the first occurrence of the separator `sep`
(model of Rust `str::split_once`). -/
def splitOnceChars (sep : List Char) : List Char → Option (List Char × List Char)
  | [] => none
  | c :: cs =>
    if sep.isPrefixOf (c :: cs) then some ([], (c :: cs).drop sep.length)
    else
      match splitOnceChars sep cs with
      | some (l, r) => some (c :: l, r)
      | none => none

def splitOnceStr (s sep : String) : Option (String × String) :=
  (splitOnceChars sep.toList s.toList).map fun p => (p.1.asString, p.2.asString)

/-- Does `sub` occur anywhere inside `s`?  Model of Rust `str::contains` for
a string pattern. -/
def containsSub (s sub : String) : Bool :=
  (splitOnceChars sub.toList s.toList).isSome

def containsChar (s : String) (c : Char) : Bool :=
  s.toList.contains c

def strStartsWith (s pre : String) : Bool :=
  pre.toList.isPrefixOf s.toList

/-- Model of Rust `str::lines`: split on newline characters, drop the final
empty chunk produced by a trailing newline, and strip one trailing carriage
return from every newline-terminated line. -/
def rustLines (s : String) : List String :=
  match s.toList with
  | [] => []
  | l =>
    let parts := splitChar '\n' l
    let endsNl := l.getLast? = some '\n'
    let parts := if endsNl then parts.dropLast else parts
    let n := parts.length
    (parts.enum).map fun p =>
      let cs := p.2
      let cs := if (p.1 + 1 < n ∨ endsNl) ∧ cs.getLast? = some '\r'
                then cs.dropLast else cs
      cs.asString

/-- Model of Rust's unsigned-integer `str::parse`: an optional leading plus
sign, at least one ASCII digit, nothing else, and the value must fit below
the given bound (overflow is a parse error). -/
def parseUnsigned (bound : Nat) (s : String) : Option Nat :=
  let t := if strStartsWith s "+" then s.toList.drop 1 else s.toList
  if t ≠ [] ∧ t.all Char.isDigit then
    let v := t.foldl (fun acc c => acc * 10 + (c.toNat - 48)) 0
    if v ≤ bound then some v else none
  else none

def parseU32 (s : String) : Option Nat := parseUnsigned 4294967295 s

def parseU8 (s : String) : Option Nat := parseUnsigned 255 s

/-! ## Rust `Path` components

`Path::components` on Unix: a leading slash yields a root component, empty
segments collapse, and `.` segments are removed except as the very first
component of a relative path.  The root component is encoded as the string
`"/"` and the current-directory component as `"."`; both encodings are
unambiguous because a normal component never contains a slash and a normal
`"."` is filtered out. -/

def rustComponents (s : String) : List String :=
  let cs := s.toList
  let hasRoot := cs.head? = some '/'
  let raw := ((splitChar '/' cs).filter (fun t => ¬t.isEmpty)).map List.asString
  if hasRoot then
    "/" :: raw.filter (fun t => t ≠ ".")
  else
    match raw with
    | [] => []
    | t :: ts => t :: ts.filter (fun t2 => t2 ≠ ".")

/-- Model of Rust `Path::starts_with`: the components of `base` are a
component-wise prefix of the components of `self`. -/
def rustStartsWith (self base : String) : Bool :=
  (rustComponents base).isPrefixOf (rustComponents self)

/-- Model of Rust `path.components().count()`. -/
def componentCount (s : String) : Nat :=
  (rustComponents s).length

/-- One folding step of `max_by_key`: a later element replaces the current
maximum when its key is greater or equal, so ties go to the later element. -/
def maxStep (k : α → Nat) : Option α → α → Option α
  | none, x => some x
  | some m, x => if k m ≤ k x then some x else some m

/-- Model of Rust `Iterator::max_by_key`: the maximum under `k`, and when
several elements are equally maximal the last one is returned. -/
def rustMaxByKey (k : α → Nat) (l : List α) : Option α :=
  l.foldl (maxStep k) none

/-! ## Data model (`src/lib.rs` taxonomy as used by the platform modules) -/

/-- `PathType` taxonomy.  The variant set is the one consumed by
`src/platform/unix.rs` and `src/platform/windows.rs`: the six drive
categories plus `Virtual` carrying the raw filesystem-type string. -/
inductive PathType
  | Unknown
  | Removable
  | Fixed
  | Remote
  | CDRom
  | RamDisk
  | Virtual (name : String)
  deriving DecidableEq, Repr, BEq

/-- `RemoteType` taxonomy as used by the platform modules. -/
inductive RemoteType
  | NFS
  | SMB
  | AFS
  | WebDAV
  | Other (description : String)
  | Unknown
  deriving DecidableEq, Repr, BEq

/-- `PathStatus` taxonomy (`src/lib.rs`). -/
inductive PathStatus
  | Mounted
  | Disconnected
  | Unknown
  | Other (description : String)
  deriving DecidableEq, Repr, BEq

/-- `InspectPathError` variants as constructed by the platform modules:
`ParseGen` (structural parse failure / missing field / no matching mount),
`ParseInt` (a numeric field failed integer conversion; the Rust payload is
the `ParseIntError`, dropped here), `General`, `PathTypeError` (unknown
drive-type code), and `InvalidPath` (drive-type code 1, no root
directory). -/
inductive InspectPathError
  | ParseGen
  | ParseInt
  | General (msg : String)
  | PathTypeError
  | InvalidPath (path : String)
  deriving DecidableEq, Repr, BEq

/-- `DeviceNumber` (`src/platform/unix.rs`): the `major:minor` pair. -/
structure DeviceNumber where
  major : Nat
  minor : Nat
  deriving DecidableEq, Repr, BEq

/-- `MountInfo` (`src/platform/unix.rs`): one parsed mountinfo row.
`PathBuf`-typed fields are carried as their underlying strings. -/
structure MountInfo where
  mount_id : Nat
  parent_id : Nat
  device_number : DeviceNumber
  fs_root : String
  mount_point : String
  fs_type : String
  block_device : String
  mount_options : String
  deriving DecidableEq, Repr, BEq

/-- `PathInfo` as constructed by the platform modules: the original path,
the kind, the optional remote kind, and the status. -/
structure PathInfo where
  path : String
  kind : PathType
  remote_kind : Option RemoteType
  status : PathStatus
  deriving DecidableEq, Repr, BEq

/-! ## Filesystem-type tables (`src/platform/unix.rs`) -/

def NFS : List String := ["nfs", "nfs4"]

def SMB : List String := ["cifs", "smbfs", "smb3"]

def SSH : List String := ["sshfs", "fuse.sshfs"]

def CLUSTER : List String := ["ceph", "fuse.ceph", "glusterfs", "fuse.glusterfs"]

def PROTOCOL : List String := ["9p", "afp", "davfs", "fuse.davfs"]

def OTHER : List String := ["ncpfs", "coda", "ocfs2", "gfs", "gfs2"]

def REMOTE_FS_TYPES : List (List String) := [NFS, SMB, SSH, CLUSTER, PROTOCOL, OTHER]

def LOCAL_BLOCK_FS_TYPES : List String :=
  ["ext2", "ext3", "ext4", "xfs", "btrfs", "f2fs", "jfs", "reiserfs",
   "reiser4", "bcachefs", "vfat", "msdos", "exfat", "ntfs", "ntfs3", "zfs"]

def CDROM_FS_TYPES : List String := ["iso9660", "udf"]

/-! ## Mount-table parser (`mountinfo_into_vec`, unix.rs lines 327-372) -/

/-- Model of `iterator.next().ok_or(InspectPathError::ParseGen)?` on the
positional field iterator. -/
def nextTok : List String → Except InspectPathError (String × List String)
  | [] => .error .ParseGen
  | t :: ts => .ok (t, ts)

/-- `field.parse::<u32>()?` with the crate's `From<ParseIntError>`
conversion. -/
def parseU32E (s : String) : Except InspectPathError Nat :=
  match parseU32 s with
  | some n => .ok n
  | none => .error .ParseInt

/-- Parse one mountinfo line: split once on `" - "`, consume the VFS half's
positional fields (mountId, parentId, `major:minor`, fsRoot, mountPoint),
then the superblock half's `fsType`, `blockDevice`, `mountOptions`. -/
def parseMountLine (line : String) : Except InspectPathError MountInfo := do
  match splitOnceStr line " - " with
  | none => .error .ParseGen
  | some (pre, post) =>
    let vfs := splitWs pre
    let (t1, vfs) ← nextTok vfs
    let mount_id ← parseU32E t1
    let (t2, vfs) ← nextTok vfs
    let parent_id ← parseU32E t2
    let (devf, vfs) ← nextTok vfs
    match splitOnceStr devf ":" with
    | none => .error .ParseGen
    | some (ma, mi) =>
      let major ← parseU32E ma
      let minor ← parseU32E mi
      let (fs_root, vfs) ← nextTok vfs
      let (mount_point, _) ← nextTok vfs
      let fs := splitWs post
      let (fs_type, fs) ← nextTok fs
      let (block_device, fs) ← nextTok fs
      let (mount_options, _) ← nextTok fs
      .ok ⟨mount_id, parent_id, ⟨major, minor⟩, fs_root, mount_point,
           fs_type, block_device, mount_options⟩

/-- `mountinfo_into_vec`: parse every line in order, aborting at the first
failing line. -/
def mountinfo_into_vec (s : String) : Except InspectPathError (List MountInfo) :=
  (rustLines s).mapM parseMountLine

/-! ## Device classifier (`get_kind` / `get_remote_kind`, unix.rs) -/

/-- The parsed value of the sysfs removable attribute.  `raw` is the result
of `fs::read_to_string("/sys/dev/block/{major}:0/removeable")`, passed in as
an oracle (`none` models a failed read); a failed read defaults to `"0"`
before the `u8` parse, exactly as in the source. -/
def removableVal (raw : Option String) : Option Nat :=
  parseU8 (raw.getD "0")

/-- `get_kind` (unix.rs lines 162-184).  The removable attribute is parsed
first (its parse failure is an error even when later branches would not
consult it); then the decision ladder: major 0 → `Virtual(fsType)`,
removable = 1 → `Removable`, optical set → `CDRom`, any remote sub-table →
`Remote`, `fuse` prefix → `Unknown`, local-block set → `Fixed`, otherwise
`Unknown`. -/
def get_kind (best : MountInfo) (raw : Option String) :
    Except InspectPathError PathType :=
  match removableVal raw with
  | none => .error .ParseInt
  | some removable =>
    let fs_type := best.fs_type
    if best.device_number.major = 0 then .ok (.Virtual fs_type)
    else if removable = 1 then .ok .Removable
    else if CDROM_FS_TYPES.contains fs_type then .ok .CDRom
    else if REMOTE_FS_TYPES.any (fun fst => fst.contains fs_type) then .ok .Remote
    else if strStartsWith fs_type "fuse" then .ok .Unknown
    else if LOCAL_BLOCK_FS_TYPES.contains fs_type then .ok .Fixed
    else .ok .Unknown

/-- `get_remote_kind` (unix.rs lines 186-204): select the remote subtype by
which sub-table contains the filesystem type. -/
def get_remote_kind (best : MountInfo) :
    Except InspectPathError (Option RemoteType) :=
  let fs_type := best.fs_type
  if NFS.contains fs_type then .ok (some .NFS)
  else if SMB.contains fs_type then .ok (some .SMB)
  else if SSH.contains fs_type then .ok (some (.Other "SSH"))
  else if CLUSTER.contains fs_type then .ok (some (.Other "Cluster / distributed"))
  else if PROTOCOL.contains fs_type then .ok (some (.Other "Network / protocol FS"))
  else if OTHER.contains fs_type then .ok (some (.Other "Other"))
  else .ok (some .Unknown)

/-! ## Mount resolver and Unix inspection (`inspect_path_new`, unix.rs) -/

/-- The candidate filter and best-match selection of `inspect_path_new`
(unix.rs lines 123-131): keep the records whose `mount_point` is a
component-wise prefix of `p`, then take the one with the most path
components, later records winning ties. -/
def resolve_mount (rs : List MountInfo) (p : String) : Option MountInfo :=
  rustMaxByKey (fun m => componentCount m.mount_point)
    (rs.filter (fun m => rustStartsWith p m.mount_point))

/-- `inspect_path_new` (unix.rs lines 121-146).  `s` is the text of
`/proc/self/mountinfo` and `raw` the sysfs removable-attribute oracle
consumed by `get_kind`.  An empty candidate set surfaces
`InspectPathError::ParseGen` via `ok_or`. -/
def inspect_path_new (s p : String) (raw : Option String) :
    Except InspectPathError PathInfo :=
  match mountinfo_into_vec s with
  | .error e => .error e
  | .ok rs =>
    match resolve_mount rs p with
    | none => .error .ParseGen
    | some best =>
      match get_kind best raw with
      | .error e => .error e
      | .ok kind =>
        match (if kind == PathType.Remote then get_remote_kind best
               else .ok none) with
        | .error e => .error e
        | .ok remote_kind => .ok ⟨p, kind, remote_kind, .Unknown⟩

/-- Modelled from the spec: the sources under inspection contain no symlink
canonicalization (nothing in `inspect_path_new` or elsewhere calls
`canonicalize`), so the behavior described in spec section 4.2 — attempt to
canonicalize the input path, match the canonical path on success, fall back
to the original on failure — is reconstructed here, with the canonicalizer
as an oracle `canon` (`none` models a failed canonicalization).  Only the
classified kind is returned, for comparison with `inspect_path_new`. -/
def resolve_kind_spec_symlink (canon : String → Option String) (s p : String)
    (raw : Option String) : Except InspectPathError PathType :=
  match mountinfo_into_vec s with
  | .error e => .error e
  | .ok rs =>
    let target := (canon p).getD p
    match resolve_mount rs target with
    | none => .error .ParseGen
    | some best => get_kind best raw

/-! ## Windows drive classification (`src/platform/windows.rs`) -/

/-- The drive-type match of the Windows `inspect_path` (windows.rs lines
38-47): code 0 (`DRIVE_UNKNOWN`) is `PathTypeError`, code 1
(`DRIVE_NO_ROOT_DIR`) is `InvalidPath`, codes 2-6 map to the five concrete
categories, and any other code is a `General` error carrying the code's
decimal text. -/
def drive_kind (result : Nat) (path : String) : Except InspectPathError PathType :=
  match result with
  | 0 => .error .PathTypeError
  | 1 => .error (.InvalidPath path)
  | 2 => .ok .Removable
  | 3 => .ok .Fixed
  | 4 => .ok .Remote
  | 5 => .ok .CDRom
  | 6 => .ok .RamDisk
  | e => .error (.General (toString e))

/-- `get_remote_type` (windows.rs lines 63-78): on a resolved universal
name, match on the triple (contains a double backslash, contains `@`,
contains `DavWWWRoot`); an unresolved name (`None`) yields `None`. -/
def get_remote_type (base_path : Option String) : Option RemoteType :=
  match base_path with
  | none => none
  | some bp =>
    match containsSub bp "\\\\", containsChar bp '@', containsSub bp "DavWWWRoot" with
    | true, false, false | true, true, false => some .SMB
    | true, false, true | true, true, true => some .WebDAV
    | false, _, _ => some .Unknown

/-- The first two characters of a path's lossy string form
(`return_first_two`, windows.rs lines 80-83). -/
def firstTwo (s : String) : String :=
  (s.toList.take 2).asString

/-- The Windows `inspect_path` (windows.rs lines 26-61).  `driveType` is the
`GetDriveTypeW` oracle, applied to the queried string, and `base_path` the
result of `get_universal_name`: when the universal name resolved, the drive
type of its first two characters is queried, otherwise that of the full
input path. -/
def inspect_path_w (driveType : String → Nat) (base_path : Option String)
    (path : String) : Except InspectPathError PathInfo :=
  let result :=
    match base_path with
    | some real => driveType (firstTwo real)
    | none => driveType path
  match drive_kind result path with
  | .error e => .error e
  | .ok kind =>
    .ok ⟨path, kind,
         if kind == PathType.Remote then get_remote_type base_path else none,
         .Unknown⟩

/-! ## Status probes (`check_status` in unix.rs and windows.rs) -/

/-- The error kinds distinguished by the probes; every other kind collapses
into `OtherKind`. -/
inductive ErrorKind
  | NotFound
  | TimedOut
  | NetworkDown
  | NotConnected
  | PermissionDenied
  | OtherKind (name : String)
  deriving DecidableEq, Repr, BEq

/-- The outcome of `std::fs::metadata`, passed to the probes as an
oracle. -/
inductive MetaResult
  | success
  | failure (k : ErrorKind)
  deriving DecidableEq, Repr, BEq

/-- `check_status` on Windows (windows.rs lines 192-206). -/
def windows_check_status : MetaResult → PathStatus
  | .success => .Mounted
  | .failure k =>
    match k with
    | .NotFound | .TimedOut | .NetworkDown | .NotConnected => .Disconnected
    | .PermissionDenied => .Mounted
    | .OtherKind _ => .Unknown

/-- `check_status` on Unix (unix.rs lines 298-303): success is `Mounted`,
any error at all is `Unknown`. -/
def unix_check_status : MetaResult → PathStatus
  | .success => .Mounted
  | .failure _ => .Unknown

/-! ## Helper lemmas about `max_by_key` -/

theorem maxStep_some_eq (k : α → Nat) (a x : α) :
    maxStep k (some a) x = some (if k a ≤ k x then x else a) := by
  by_cases h : k a ≤ k x <;> simp [maxStep, h]

theorem foldl_maxStep_some (k : α → Nat) :
    ∀ (l : List α) (a : α), ∃ m, l.foldl (maxStep k) (some a) = some m
  | [], a => ⟨a, rfl⟩
  | x :: xs, a => by
    rw [List.foldl_cons, maxStep_some_eq]
    exact foldl_maxStep_some k xs _

/-- Structure of a fold of `maxStep` started on accumulator `a`: either the
accumulator survives and beats every list element strictly, or the result
splits the list with everything before it at most as large and everything
after it strictly smaller (so equal keys are resolved towards the later
element). -/
theorem foldl_maxStep_split (k : α → Nat) :
    ∀ (l : List α) (a m : α), l.foldl (maxStep k) (some a) = some m →
      (m = a ∧ ∀ x ∈ l, k x < k a) ∨
      (∃ l1 l2, l = l1 ++ m :: l2 ∧ k a ≤ k m ∧
        (∀ x ∈ l1, k x ≤ k m) ∧ (∀ x ∈ l2, k x < k m))
  | [], a, m, h => by
    left
    refine ⟨(Option.some.inj h).symm, ?_⟩
    intro x hx
    cases hx
  | x :: xs, a, m, h => by
    rw [List.foldl_cons, maxStep_some_eq] at h
    by_cases hax : k a ≤ k x
    · rw [if_pos hax] at h
      rcases foldl_maxStep_split k xs x m h with ⟨hm, hall⟩ | ⟨l1, l2, heq, hle, h1, h2⟩
      · right
        refine ⟨[], xs, by simp [hm], ?_, ?_, ?_⟩
        · subst hm; exact hax
        · intro y hy; cases hy
        · subst hm; exact hall
      · right
        refine ⟨x :: l1, l2, by rw [heq]; rfl, le_trans hax hle, ?_, h2⟩
        intro y hy
        rcases List.mem_cons.mp hy with rfl | hy'
        · exact hle
        · exact h1 y hy'
    · rw [if_neg hax] at h
      push_neg at hax
      rcases foldl_maxStep_split k xs a m h with ⟨hm, hall⟩ | ⟨l1, l2, heq, hle, h1, h2⟩
      · left
        refine ⟨hm, ?_⟩
        intro y hy
        rcases List.mem_cons.mp hy with rfl | hy'
        · subst hm; exact hax
        · exact hall y hy'
      · right
        refine ⟨x :: l1, l2, by rw [heq]; rfl, hle, ?_, h2⟩
        intro y hy
        rcases List.mem_cons.mp hy with rfl | hy'
        · exact le_trans (le_of_lt hax) hle
        · exact h1 y hy'

/-- `max_by_key` splits its list at the returned element: earlier elements
have keys at most the maximum, later elements strictly smaller keys. -/
theorem rustMaxByKey_split (k : α → Nat) (l : List α) (m : α)
    (h : rustMaxByKey k l = some m) :
    ∃ l1 l2, l = l1 ++ m :: l2 ∧
      (∀ x ∈ l1, k x ≤ k m) ∧ (∀ x ∈ l2, k x < k m) := by
  cases l with
  | nil => simp [rustMaxByKey] at h
  | cons x xs =>
    have h' : xs.foldl (maxStep k) (some x) = some m := h
    rcases foldl_maxStep_split k xs x m h' with ⟨hm, hall⟩ | ⟨l1, l2, heq, hle, h1, h2⟩
    · refine ⟨[], xs, by simp [hm], ?_, ?_⟩
      · intro y hy; cases hy
      · subst hm; exact hall
    · refine ⟨x :: l1, l2, by rw [heq]; rfl, ?_, h2⟩
      intro y hy
      rcases List.mem_cons.mp hy with rfl | hy'
      · exact hle
      · exact h1 y hy'

theorem rustMaxByKey_mem (k : α → Nat) (l : List α) (m : α)
    (h : rustMaxByKey k l = some m) : m ∈ l := by
  rcases rustMaxByKey_split k l m h with ⟨l1, l2, heq, -, -⟩
  rw [heq]
  exact List.mem_append_right l1 (List.mem_cons_self m l2)

theorem rustMaxByKey_le (k : α → Nat) (l : List α) (m : α)
    (h : rustMaxByKey k l = some m) : ∀ x ∈ l, k x ≤ k m := by
  rcases rustMaxByKey_split k l m h with ⟨l1, l2, heq, h1, h2⟩
  intro x hx
  rw [heq] at hx
  rcases List.mem_append.mp hx with hx1 | hx2
  · exact h1 x hx1
  · rcases List.mem_cons.mp hx2 with rfl | hx2'
    · exact le_refl _
    · exact le_of_lt (h2 x hx2')

theorem rustMaxByKey_of_ne_nil (k : α → Nat) (l : List α) (h : l ≠ []) :
    ∃ m, rustMaxByKey k l = some m := by
  cases l with
  | nil => exact absurd rfl h
  | cons x xs => exact foldl_maxStep_some k xs x

theorem get_remote_kind_exists (b : MountInfo) :
    ∃ r, get_remote_kind b = .ok (some r) := by
  dsimp only [get_remote_kind]
  split_ifs <;> exact ⟨_, rfl⟩

/-- Reduction of `get_kind` once the removable attribute parsed to `v`. -/
theorem get_kind_eq (mi : MountInfo) (raw : Option String) (v : Nat)
    (h : removableVal raw = some v) :
    get_kind mi raw = .ok (
      if mi.device_number.major = 0 then .Virtual mi.fs_type
      else if v = 1 then .Removable
      else if CDROM_FS_TYPES.contains mi.fs_type then .CDRom
      else if REMOTE_FS_TYPES.any (fun fst => fst.contains mi.fs_type) then .Remote
      else if strStartsWith mi.fs_type "fuse" then .Unknown
      else if LOCAL_BLOCK_FS_TYPES.contains mi.fs_type then .Fixed
      else .Unknown) := by
  unfold get_kind
  rw [h]
  dsimp only
  split_ifs <;> rfl

/-- Reduction of `get_remote_kind` to an if-chain over the record's
filesystem type. -/
theorem get_remote_kind_eq (mi : MountInfo) :
    get_remote_kind mi = .ok (some (
      if NFS.contains mi.fs_type then .NFS
      else if SMB.contains mi.fs_type then .SMB
      else if SSH.contains mi.fs_type then .Other "SSH"
      else if CLUSTER.contains mi.fs_type then .Other "Cluster / distributed"
      else if PROTOCOL.contains mi.fs_type then .Other "Network / protocol FS"
      else if OTHER.contains mi.fs_type then .Other "Other"
      else .Unknown)) := by
  dsimp only [get_remote_kind]
  split_ifs <;> rfl

/-! ## Claims -/

/-- Claim C1: for every parsed mount table and every input path, resolution
considers exactly the records whose mount point is a component-wise
ancestor-or-equal prefix of the path (so a path under `/mediaX` does not
match mount point `/media`), returns among those candidates a record with
the greatest number of path components, and fails (with the error the spec
calls `NoMatchingMount`, realized by the crate as the `ParseGen` variant)
when no record's mount point is a prefix of the path. -/
theorem claim_C1_resolution (rs : List MountInfo) (p : String) :
    ((∀ m ∈ rs, rustStartsWith p m.mount_point = false) →
      resolve_mount rs p = none) ∧
    (∀ best, resolve_mount rs p = some best →
      best ∈ rs ∧ rustStartsWith p best.mount_point = true ∧
      ∀ m ∈ rs, rustStartsWith p m.mount_point = true →
        componentCount m.mount_point ≤ componentCount best.mount_point) ∧
    ((∃ m ∈ rs, rustStartsWith p m.mount_point = true) →
      ∃ best, resolve_mount rs p = some best) ∧
    (∀ s raw, mountinfo_into_vec s = .ok rs → resolve_mount rs p = none →
      inspect_path_new s p raw = .error .ParseGen) ∧
    rustStartsWith "/mediaX" "/media" = false := by
  refine ⟨?_, ?_, ?_, ?_, by rfl⟩
  · intro h
    unfold resolve_mount
    have : rs.filter (fun m => rustStartsWith p m.mount_point) = [] := by
      rw [List.filter_eq_nil_iff]
      intro m hm
      simp [h m hm]
    rw [this]
    rfl
  · intro best h
    have hmem := rustMaxByKey_mem _ _ _ h
    have hf := List.mem_filter.mp hmem
    refine ⟨hf.1, hf.2, ?_⟩
    intro m hm hpre
    exact rustMaxByKey_le _ _ _ h m (List.mem_filter.mpr ⟨hm, hpre⟩)
  · rintro ⟨m, hm, hpre⟩
    exact rustMaxByKey_of_ne_nil _ _
      (List.ne_nil_of_mem (List.mem_filter.mpr ⟨hm, hpre⟩))
  · intro s raw hparse hres
    unfold inspect_path_new
    rw [hparse]
    dsimp only
    rw [hres]

theorem claim_C1_resolution_witness :
    ∃ best,
      resolve_mount [⟨1, 1, ⟨8, 1⟩, "/", "/", "ext4", "/dev/sda1", "rw"⟩]
        "/a" = some best :=
  (claim_C1_resolution [⟨1, 1, ⟨8, 1⟩, "/", "/", "ext4", "/dev/sda1", "rw"⟩]
    "/a").2.2.1
    ⟨⟨1, 1, ⟨8, 1⟩, "/", "/", "ext4", "/dev/sda1", "rw"⟩, by simp, by rfl⟩

/-- Claim C10 (implicit): when candidate mount records tie for the greatest
number of mount-point path components, resolution deterministically selects
the tied record appearing latest in the table's order: the candidate list
splits at the returned record with every earlier candidate's component
count at most the winner's and every later candidate's strictly smaller. -/
theorem claim_C10_last_tie (rs : List MountInfo) (p : String) (best : MountInfo)
    (h : resolve_mount rs p = some best) :
    ∃ l1 l2,
      rs.filter (fun m => rustStartsWith p m.mount_point) = l1 ++ best :: l2 ∧
      (∀ m ∈ l1, componentCount m.mount_point ≤ componentCount best.mount_point) ∧
      (∀ m ∈ l2, componentCount m.mount_point < componentCount best.mount_point) :=
  rustMaxByKey_split _ _ _ h

theorem claim_C10_last_tie_witness :
    ∃ l1 l2,
      ([⟨1, 1, ⟨8, 1⟩, "/", "/a", "ext4", "/dev/sda1", "rw"⟩,
        ⟨2, 1, ⟨8, 2⟩, "/", "/a", "xfs", "/dev/sdb1", "rw"⟩] :
          List MountInfo).filter
        (fun m => rustStartsWith "/a/b" m.mount_point) =
        l1 ++ (⟨2, 1, ⟨8, 2⟩, "/", "/a", "xfs", "/dev/sdb1", "rw"⟩ : MountInfo) :: l2 ∧
      (∀ m ∈ l1, componentCount m.mount_point ≤ componentCount "/a") ∧
      (∀ m ∈ l2, componentCount m.mount_point < componentCount "/a") :=
  claim_C10_last_tie
    [⟨1, 1, ⟨8, 1⟩, "/", "/a", "ext4", "/dev/sda1", "rw"⟩,
     ⟨2, 1, ⟨8, 2⟩, "/", "/a", "xfs", "/dev/sdb1", "rw"⟩]
    "/a/b" ⟨2, 1, ⟨8, 2⟩, "/", "/a", "xfs", "/dev/sdb1", "rw"⟩ (by rfl)

/-- Claim C4: every mount record whose device number has major 0 classifies
as `Virtual` carrying the record's filesystem-type string, whatever that
string is.  The sysfs removable-attribute oracle must be absent or
parseable (its parse failure is the classifier's only error path and is
checked before the major test). -/
theorem claim_C4_major_zero_virtual (mi : MountInfo) (raw : Option String)
    (hmaj : mi.device_number.major = 0)
    (hraw : (removableVal raw).isSome = true) :
    get_kind mi raw = .ok (.Virtual mi.fs_type) := by
  obtain ⟨v, hv⟩ := Option.isSome_iff_exists.mp hraw
  rw [get_kind_eq mi raw v hv, if_pos hmaj]

theorem claim_C4_major_zero_virtual_witness :
    get_kind ⟨24, 28, ⟨0, 21⟩, "/", "/proc", "proc", "proc", "rw"⟩ none =
      .ok (.Virtual "proc") :=
  claim_C4_major_zero_virtual
    ⟨24, 28, ⟨0, 21⟩, "/", "/proc", "proc", "proc", "rw"⟩ none (by rfl) (by rfl)

/-- Claim C7 counterexample: a record with filesystem type `nfs4` does NOT
always classify as `Remote` — with device major 0 (the usual device number
of a real NFS mount) `get_kind` returns `Virtual "nfs4"`, because the
major-0 test precedes the remote-table lookup. -/
theorem claim_C7_counterexample :
    get_kind ⟨77, 1, ⟨0, 42⟩, "/", "/mnt/n", "nfs4", "srv:/e", "rw"⟩ none =
      .ok (.Virtual "nfs4") ∧
    (Except.ok (PathType.Virtual "nfs4") : Except InspectPathError PathType) ≠
      .ok .Remote :=
  ⟨by rfl, by decide⟩

/-- Claim C7 amended: for records that reach the filesystem-type tests —
device major nonzero and removable attribute parsed to a value other
than 1 — type `nfs4` classifies `Remote` with remote kind `NFS`, and type
`cifs` classifies `Remote` with remote kind `SMB`. -/
theorem claim_C7_amended (mi : MountInfo) (raw : Option String) (v : Nat)
    (hraw : removableVal raw = some v) (hv : v ≠ 1)
    (hmaj : mi.device_number.major ≠ 0) :
    (mi.fs_type = "nfs4" →
      get_kind mi raw = .ok .Remote ∧ get_remote_kind mi = .ok (some .NFS)) ∧
    (mi.fs_type = "cifs" →
      get_kind mi raw = .ok .Remote ∧ get_remote_kind mi = .ok (some .SMB)) := by
  constructor <;> intro hfs <;> constructor
  · rw [get_kind_eq mi raw v hraw, hfs, if_neg hmaj, if_neg hv]; decide
  · rw [get_remote_kind_eq mi, hfs]; decide
  · rw [get_kind_eq mi raw v hraw, hfs, if_neg hmaj, if_neg hv]; decide
  · rw [get_remote_kind_eq mi, hfs]; decide

theorem claim_C7_amended_witness :
    get_kind ⟨50, 1, ⟨253, 3⟩, "/", "/mnt/nfs", "nfs4", "srv:/exp", "rw"⟩ none =
      .ok .Remote ∧
    get_remote_kind ⟨50, 1, ⟨253, 3⟩, "/", "/mnt/nfs", "nfs4", "srv:/exp", "rw"⟩ =
      .ok (some .NFS) :=
  (claim_C7_amended ⟨50, 1, ⟨253, 3⟩, "/", "/mnt/nfs", "nfs4", "srv:/exp", "rw"⟩
    none 0 (by rfl) (by decide) (by decide)).1 (by rfl)

/-- Claim C8: the sample mountinfo line parses to exactly one record with
the stated eight fields, and classifying that record yields
`Virtual "mqueue"` (for any absent-or-parseable removable attribute). -/
theorem claim_C8_end_to_end :
    mountinfo_into_vec
      "40 28 0:20 / /dev/mqueue rw,nosuid,nodev,noexec,relatime shared:15 - mqueue mqueue rw" =
      .ok [⟨40, 28, ⟨0, 20⟩, "/", "/dev/mqueue", "mqueue", "mqueue", "rw"⟩] ∧
    ∀ raw, (removableVal raw).isSome = true →
      get_kind ⟨40, 28, ⟨0, 20⟩, "/", "/dev/mqueue", "mqueue", "mqueue", "rw"⟩ raw =
        .ok (.Virtual "mqueue") := by
  refine ⟨by rfl, ?_⟩
  intro raw hraw
  obtain ⟨v, hv⟩ := Option.isSome_iff_exists.mp hraw
  rw [get_kind_eq _ _ v hv]
  rfl

theorem claim_C8_end_to_end_witness :
    get_kind ⟨40, 28, ⟨0, 20⟩, "/", "/dev/mqueue", "mqueue", "mqueue", "rw"⟩ none =
      .ok (.Virtual "mqueue") :=
  claim_C8_end_to_end.2 none (by rfl)

/-- Claim C5 counterexample: the cited malformed line (third field
`/dev/mqueue`, no colon) fails with the structural `ParseGen` error — the
very variant used for missing fields — not with a distinguishable
field-parse error. -/
theorem claim_C5_counterexample :
    mountinfo_into_vec "40 28 /dev/mqueue rw - mqueue mqueue rw" =
      .error .ParseGen ∧
    InspectPathError.ParseGen ≠ InspectPathError.ParseInt :=
  ⟨by rfl, by decide⟩

/-- Claim C5 amended: a third positional field with no colon (such as the
cited line) fails with the structural `ParseGen` error, the same variant as
a missing field; only a third field of the form `a:b` whose `a` or `b` is
not an unsigned integer fails with the distinct `ParseInt` field-parse
error. -/
theorem claim_C5_amended :
    mountinfo_into_vec "40 28 /dev/mqueue rw - mqueue mqueue rw" =
      .error .ParseGen ∧
    mountinfo_into_vec "40 28 x:20 / /dev/mqueue rw - mqueue mqueue rw" =
      .error .ParseInt ∧
    mountinfo_into_vec "40 28 0:y / /dev/mqueue rw - mqueue mqueue rw" =
      .error .ParseInt ∧
    InspectPathError.ParseInt ≠ InspectPathError.ParseGen :=
  ⟨by rfl, by rfl, by rfl, by decide⟩

/-- Claim C3 counterexample: Unix inspection does not canonicalize before
matching.  On a table with an `ext4` root and a `cifs` mount at
`/mnt/net`, and a canonicalization oracle sending `/data/link` to
`/mnt/net/file`, `inspect_path_new` classifies the original path under the
root mount (`Fixed`), while the spec-modelled symlink-following resolver
classifies the canonical path's mount (`Remote`). -/
theorem claim_C3_counterexample :
    inspect_path_new
      "1 1 8:1 / / rw - ext4 /dev/sda1 rw\n2 1 8:2 / /mnt/net rw - cifs //srv/sh rw"
      "/data/link" none = .ok ⟨"/data/link", .Fixed, none, .Unknown⟩ ∧
    resolve_kind_spec_symlink
      (fun q => if q = "/data/link" then some "/mnt/net/file" else none)
      "1 1 8:1 / / rw - ext4 /dev/sda1 rw\n2 1 8:2 / /mnt/net rw - cifs //srv/sh rw"
      "/data/link" none = .ok .Remote ∧
    PathType.Fixed ≠ PathType.Remote :=
  ⟨by rfl, by rfl, by decide⟩

/-- Claim C3 amended: Unix inspection performs no canonicalization at all:
whenever `inspect_path_new` succeeds, the returned record carries the
original input path unchanged (there is no resolved-path or is-symlink
field), and the classified kind is that of a mount whose mount point is a
component-wise prefix of the original — not of any canonicalized — path. -/
theorem claim_C3_amended (s p : String) (raw : Option String) (info : PathInfo)
    (h : inspect_path_new s p raw = .ok info) :
    info.path = p ∧ info.status = .Unknown ∧
    ∃ rs best, mountinfo_into_vec s = .ok rs ∧ best ∈ rs ∧
      rustStartsWith p best.mount_point = true ∧
      get_kind best raw = .ok info.kind := by
  unfold inspect_path_new at h
  cases hparse : mountinfo_into_vec s with
  | error e => rw [hparse] at h; simp at h
  | ok rs =>
    rw [hparse] at h
    dsimp only at h
    cases hres : resolve_mount rs p with
    | none => rw [hres] at h; simp at h
    | some best =>
      rw [hres] at h
      dsimp only at h
      cases hk : get_kind best raw with
      | error e => rw [hk] at h; simp at h
      | ok kind =>
        rw [hk] at h
        dsimp only at h
        have hrk : ∃ rk,
            (if kind == PathType.Remote then get_remote_kind best
             else .ok none) = .ok rk := by
          by_cases hc : kind == PathType.Remote
          · rw [if_pos hc]
            obtain ⟨r, hr⟩ := get_remote_kind_exists best
            exact ⟨some r, hr⟩
          · rw [if_neg hc]
            exact ⟨none, rfl⟩
        obtain ⟨rk, hrk⟩ := hrk
        rw [hrk] at h
        dsimp only at h
        have heq : (⟨p, kind, rk, .Unknown⟩ : PathInfo) = info := Except.ok.inj h
        subst heq
        have hmem := List.mem_filter.mp (rustMaxByKey_mem _ _ _ hres)
        exact ⟨rfl, rfl, rs, best, rfl, hmem.1, hmem.2, hk⟩

theorem claim_C3_amended_witness :
    (PathInfo.mk "/data/link" .Fixed none .Unknown).path = "/data/link" ∧
    (PathInfo.mk "/data/link" .Fixed none .Unknown).status = .Unknown ∧
    ∃ rs best,
      mountinfo_into_vec
        "1 1 8:1 / / rw - ext4 /dev/sda1 rw\n2 1 8:2 / /mnt/net rw - cifs //srv/sh rw" =
        .ok rs ∧ best ∈ rs ∧
      rustStartsWith "/data/link" best.mount_point = true ∧
      get_kind best none = .ok (PathInfo.mk "/data/link" .Fixed none .Unknown).kind :=
  claim_C3_amended
    "1 1 8:1 / / rw - ext4 /dev/sda1 rw\n2 1 8:2 / /mnt/net rw - cifs //srv/sh rw"
    "/data/link" none (PathInfo.mk "/data/link" .Fixed none .Unknown) (by rfl)

/-- Claim C2 counterexample: on Windows, drive-type code 0
(`DRIVE_UNKNOWN`) is a hard `PathTypeError`, not a successful `Unknown`
classification as the claim states. -/
theorem claim_C2_counterexample :
    inspect_path_w (fun _ => 0) none "Q:\\" = .error .PathTypeError ∧
    (Except.error InspectPathError.PathTypeError :
      Except InspectPathError PathInfo) ≠
      .ok ⟨"Q:\\", .Unknown, none, .Unknown⟩ :=
  ⟨by rfl, by decide⟩

/-- Claim C2 amended: the Windows drive-type code map is: code 0
(unknown) → `PathTypeError` (a hard error, not a silent `Unknown`), code 1
(no root directory) → `InvalidPath` (the spec's `InvalidRoot`), codes 2-6 →
`Removable`, `Fixed`, `Remote`, `CDRom`, `RamDisk`, and every code of 7 or
more → a `General` classifier error carrying the code, never a silent
`Unknown`. -/
theorem claim_C2_amended (path : String) :
    drive_kind 0 path = .error .PathTypeError ∧
    drive_kind 1 path = .error (.InvalidPath path) ∧
    drive_kind 2 path = .ok .Removable ∧
    drive_kind 3 path = .ok .Fixed ∧
    drive_kind 4 path = .ok .Remote ∧
    drive_kind 5 path = .ok .CDRom ∧
    drive_kind 6 path = .ok .RamDisk ∧
    (∀ c, 7 ≤ c → drive_kind c path = .error (.General (toString c))) := by
  refine ⟨rfl, rfl, rfl, rfl, rfl, rfl, rfl, ?_⟩
  intro c hc
  match c, hc with
  | (n + 7), _ => rfl

theorem claim_C2_amended_witness :
    drive_kind 9 "Q:\\" = .error (.General "9") :=
  (claim_C2_amended "Q:\\").2.2.2.2.2.2.2 9 (by decide)

/-- Claim C6 counterexample: remote-subtype derivation is not by UNC
prefix, and resolution failure does not yield `Unknown`.  An unresolved
universal name yields `none` (no subtype), not `some Unknown`; and a
resolved name containing a double backslash that is not a prefix still
yields `SMB`, where the claim requires `Unknown`. -/
theorem claim_C6_counterexample :
    get_remote_type none = none ∧
    (none : Option RemoteType) ≠ some .Unknown ∧
    get_remote_type (some "N:a\\\\b") = some .SMB ∧
    strStartsWith "N:a\\\\b" "\\\\" = false :=
  ⟨rfl, by decide, by rfl, by rfl⟩

/-- Claim C6 amended: on a resolved universal name, a double backslash
occurring anywhere (substring, not prefix) without the `DavWWWRoot` marker
yields `SMB`, with the marker yields `WebDAV`, and no double backslash at
all yields `Unknown`; failure to resolve the universal name yields no
subtype (`none`) rather than an error.  For a `Remote` drive the Windows
inspection stores exactly this derivation in `remote_kind`. -/
theorem claim_C6_amended (bp : String) :
    (containsSub bp "\\\\" = true → containsSub bp "DavWWWRoot" = false →
      get_remote_type (some bp) = some .SMB) ∧
    (containsSub bp "\\\\" = true → containsSub bp "DavWWWRoot" = true →
      get_remote_type (some bp) = some .WebDAV) ∧
    (containsSub bp "\\\\" = false → get_remote_type (some bp) = some .Unknown) ∧
    get_remote_type none = none ∧
    (∀ path, inspect_path_w (fun _ => 4) (some bp) path =
      .ok ⟨path, .Remote, get_remote_type (some bp), .Unknown⟩) := by
  refine ⟨?_, ?_, ?_, rfl, fun path => rfl⟩
  · intro h1 h2
    cases hat : containsChar bp '@' <;> simp [get_remote_type, h1, h2, hat]
  · intro h1 h2
    cases hat : containsChar bp '@' <;> simp [get_remote_type, h1, h2, hat]
  · intro h1
    cases hat : containsChar bp '@' <;>
      cases hdav : containsSub bp "DavWWWRoot" <;>
        simp [get_remote_type, h1, hat, hdav]

theorem claim_C6_amended_witness :
    get_remote_type (some "\\\\srv\\share") = some .SMB :=
  (claim_C6_amended "\\\\srv\\share").1 (by rfl) (by rfl)

/-- Claim C9 counterexample: the Unix probe does not map the not-found
error kind to `Disconnected` — it maps every error to `Unknown`. -/
theorem claim_C9_counterexample :
    unix_check_status (.failure .NotFound) = .Unknown ∧
    PathStatus.Unknown ≠ PathStatus.Disconnected :=
  ⟨rfl, by decide⟩

/-- Claim C9 amended: only the Windows probe maps success to `Mounted`,
the not-found, timed-out, network-down and not-connected error kinds to
`Disconnected`, permission-denied to `Mounted`, and every other error to
`Unknown`; the Unix probe maps success to `Mounted` and every error,
whatever its kind, to `Unknown`. -/
theorem claim_C9_amended :
    windows_check_status .success = .Mounted ∧
    windows_check_status (.failure .NotFound) = .Disconnected ∧
    windows_check_status (.failure .TimedOut) = .Disconnected ∧
    windows_check_status (.failure .NetworkDown) = .Disconnected ∧
    windows_check_status (.failure .NotConnected) = .Disconnected ∧
    windows_check_status (.failure .PermissionDenied) = .Mounted ∧
    (∀ s, windows_check_status (.failure (.OtherKind s)) = .Unknown) ∧
    unix_check_status .success = .Mounted ∧
    (∀ k, unix_check_status (.failure k) = .Unknown) :=
  ⟨rfl, rfl, rfl, rfl, rfl, rfl, fun _ => rfl, rfl, fun _ => rfl⟩

end InspectPath

